import Mathlib

/-!
# CVSS v3.1 scoring engine — verification of the specification

Shallow embedding of `audit_companion/cvss.py` (the CVSS v3.1 calculator of
the bbc-ai repository).  Python floats are modelled by exact rationals `ℚ`;
Python dictionary lookups that may raise `KeyError` are modelled by
`Option ℚ`; `dict.get(key, 1)` is modelled by a total function with default
value `1`.  Python strings are modelled by Lean `String`, and the character
level operations of `str.split` / slicing are modelled on `List Char`
(Python slices and splits strings by characters).
-/

namespace CVSS

/-- The `CVSSMetrics` dataclass of `cvss.py`, with the same field names and
the same default field values.  Base metric fields default to enumerated
codes, optional temporal and environmental fields default to `None`
(modelled by `none`).  The dataclass performs no validation of its own. -/
structure CVSSMetrics where
  attack_vector : String := "N"
  attack_complexity : String := "H"
  privileges_required : String := "H"
  user_interaction : String := "R"
  scope : String := "U"
  confidentiality : String := "N"
  integrity : String := "N"
  availability : String := "N"
  exploit_code_maturity : Option String := none
  remediation_level : Option String := none
  report_confidence : Option String := none
  confidentiality_req : Option String := none
  integrity_req : Option String := none
  availability_req : Option String := none
  modified_attack_vector : Option String := none
  modified_attack_complexity : Option String := none
  modified_privileges_required : Option String := none
  modified_user_interaction : Option String := none
  modified_scope : Option String := none
  modified_confidentiality : Option String := none
  modified_integrity : Option String := none
  modified_availability : Option String := none
  deriving DecidableEq, Repr

/-- `CVSSMetrics()` — the default-constructed metrics object. -/
def cvss_default : CVSSMetrics := {}

/-- `_weights["AV"]` dictionary lookup: `KeyError` becomes `none`. -/
def av_weight (s : String) : Option ℚ :=
  if s = "N" then some (85/100 : ℚ)
  else if s = "A" then some (62/100 : ℚ)
  else if s = "L" then some (55/100 : ℚ)
  else if s = "P" then some (2/10 : ℚ)
  else none

/-- `_weights["AC"]` dictionary lookup. -/
def ac_weight (s : String) : Option ℚ :=
  if s = "H" then some (44/100 : ℚ)
  else if s = "L" then some (77/100 : ℚ)
  else none

/-- `_weights["PR"][scope][pr]` — the nested lookup keyed first by scope. -/
def pr_weight (scope pr : String) : Option ℚ :=
  if scope = "U" then
    if pr = "N" then some (85/100 : ℚ)
    else if pr = "L" then some (62/100 : ℚ)
    else if pr = "H" then some (27/100 : ℚ)
    else none
  else if scope = "C" then
    if pr = "N" then some (85/100 : ℚ)
    else if pr = "L" then some (68/100 : ℚ)
    else if pr = "H" then some (5/10 : ℚ)
    else none
  else none

/-- `_weights["UI"]` dictionary lookup. -/
def ui_weight (s : String) : Option ℚ :=
  if s = "N" then some (85/100 : ℚ)
  else if s = "R" then some (62/100 : ℚ)
  else none

/-- `_weights["CIA"]` dictionary lookup. -/
def cia_weight (s : String) : Option ℚ :=
  if s = "N" then some 0
  else if s = "L" then some (22/100 : ℚ)
  else if s = "H" then some (56/100 : ℚ)
  else none

/-- `_temporal_weights["E"].get(value, 1)` — total, with default `1`. -/
def e_weight (s : String) : ℚ :=
  if s = "X" then 1
  else if s = "H" then 1
  else if s = "F" then (97/100 : ℚ)
  else if s = "P" then (94/100 : ℚ)
  else if s = "U" then (91/100 : ℚ)
  else 1

/-- `_temporal_weights["RL"].get(value, 1)` — total, with default `1`. -/
def rl_weight (s : String) : ℚ :=
  if s = "X" then 1
  else if s = "U" then 1
  else if s = "W" then (97/100 : ℚ)
  else if s = "T" then (96/100 : ℚ)
  else if s = "O" then (95/100 : ℚ)
  else 1

/-- `_temporal_weights["RC"].get(value, 1)` — total, with default `1`. -/
def rc_weight (s : String) : ℚ :=
  if s = "X" then 1
  else if s = "C" then 1
  else if s = "R" then (96/100 : ℚ)
  else if s = "U" then (92/100 : ℚ)
  else 1

/-- Python's builtin `round` on a rational: round to the nearest integer,
ties to the even integer (banker's rounding, the semantics of `round` in
Python 3). -/
def pyRound (x : ℚ) : ℤ :=
  if x - (⌊x⌋ : ℚ) < 1/2 then ⌊x⌋
  else if 1/2 < x - (⌊x⌋ : ℚ) then ⌊x⌋ + 1
  else if ⌊x⌋ % 2 = 0 then ⌊x⌋ else ⌊x⌋ + 1

/-- `CVSSCalculator._calculate_impact_subscore`.  The CIA weight lookups can
raise `KeyError` (→ `none`); any scope other than `"U"` takes the
Changed-scope branch, exactly as the `if/else` in the source does. -/
def calculate_impact_subscore (m : CVSSMetrics) : Option ℚ := do
  let c ← cia_weight m.confidentiality
  let i ← cia_weight m.integrity
  let a ← cia_weight m.availability
  let iss_base := 1 - ((1 - c) * (1 - i) * (1 - a))
  if m.scope = "U" then
    pure ((642/100 : ℚ) * iss_base)
  else
    pure ((752/100 : ℚ) * (iss_base - (29/1000 : ℚ)) - (325/100 : ℚ) * (iss_base - (2/100 : ℚ)) ^ 15)

/-- `CVSSCalculator._calculate_exploitability_subscore`. -/
def calculate_exploitability_subscore (m : CVSSMetrics) : Option ℚ := do
  let av ← av_weight m.attack_vector
  let ac ← ac_weight m.attack_complexity
  let pr ← pr_weight m.scope m.privileges_required
  let ui ← ui_weight m.user_interaction
  pure ((822/100 : ℚ) * av * ac * pr * ui)

/-- `CVSSCalculator.calculate_base_score`.  The impact and exploitability
sub-scores are both computed before the `impact ≤ 0` early exit, exactly as
in the source, so a lookup failure in either one propagates. -/
def calculate_base_score (m : CVSSMetrics) : Option ℚ := do
  let impact_sub_score ← calculate_impact_subscore m
  let exploitability_sub_score ← calculate_exploitability_subscore m
  if impact_sub_score ≤ 0 then
    pure 0
  else
    let base_score :=
      if m.scope = "U" then
        min 10 ((752/100 : ℚ) * impact_sub_score + (44/100 : ℚ) * exploitability_sub_score)
      else
        min 10 ((752/100 : ℚ) * (impact_sub_score + (18/100 : ℚ)) + (44/100 : ℚ) * exploitability_sub_score)
    pure ((pyRound (base_score * 10) : ℚ) / 10)

/-- `CVSSCalculator.calculate_temporal_score`.  The guard
`not e or not rl or not rc` is Python truthiness: it fires when a temporal
metric is `None` or the empty string.  Unrecognized codes get weight `1`
through `dict.get(·, 1)`. -/
def calculate_temporal_score (base_score : ℚ) (m : CVSSMetrics) : ℚ :=
  match m.exploit_code_maturity, m.remediation_level, m.report_confidence with
  | some e, some rl, some rc =>
    if e = "" ∨ rl = "" ∨ rc = "" then
      base_score
    else
      let temporal_score := base_score * e_weight e * rl_weight rl * rc_weight rc
      (pyRound (temporal_score * 10) : ℚ) / 10
  | _, _, _ => base_score

/-- `CVSSCalculator.score_to_severity`. -/
def score_to_severity (score : ℚ) : String :=
  if score = 0 then "None"
  else if 1/10 ≤ score ∧ score ≤ 39/10 then "Low"
  else if 4 ≤ score ∧ score ≤ 69/10 then "Medium"
  else if 7 ≤ score ∧ score ≤ 89/10 then "High"
  else "Critical"

/-- Python's `text.split(sep)` for a one-character separator, on the
character list of the string: splitting the empty string yields `[[]]`, and
every occurrence of the separator starts a new (possibly empty) chunk. -/
def split_on_char (sep : Char) : List Char → List (List Char)
  | [] => [[]]
  | c :: cs =>
    if c = sep then [] :: split_on_char sep cs
    else
      match split_on_char sep cs with
      | [] => [[c]]
      | h :: t => (c :: h) :: t

/-- The characters of the `"CVSS:3.1/"` vector-string header. -/
def cvss_header : List Char := ['C', 'V', 'S', 'S', ':', '3', '.', '1', '/']

/-- The prefix stripping at the top of `parse_vector_string`:
`if vector_string.startswith("CVSS:3.1/"): vector_string = vector_string[9:]`
(Python slices strings by characters). -/
def strip_header (s : String) : List Char :=
  if s.data.take 9 = cvss_header then s.data.drop 9 else s.data

/-- The body of the `for component in vector_string.split("/")` loop of
`parse_vector_string`: skip empty components, skip components that do not
split on `":"` into exactly two parts, and otherwise assign the value into
the field selected by the metric key (unknown keys are ignored). -/
def apply_component (m : CVSSMetrics) (comp : List Char) : CVSSMetrics :=
  if comp = [] then m
  else
    match split_on_char ':' comp with
    | [k, v] =>
      let metric := String.mk k
      let value := String.mk v
      if metric = "AV" then { m with attack_vector := value }
      else if metric = "AC" then { m with attack_complexity := value }
      else if metric = "PR" then { m with privileges_required := value }
      else if metric = "UI" then { m with user_interaction := value }
      else if metric = "S" then { m with scope := value }
      else if metric = "C" then { m with confidentiality := value }
      else if metric = "I" then { m with integrity := value }
      else if metric = "A" then { m with availability := value }
      else if metric = "E" then { m with exploit_code_maturity := some value }
      else if metric = "RL" then { m with remediation_level := some value }
      else if metric = "RC" then { m with report_confidence := some value }
      else m
    | _ => m

/-- `CVSSCalculator.parse_vector_string`: strip the optional header, split
on `"/"`, and fold the component assignments over a default-constructed
`CVSSMetrics()`. -/
def parse_vector_string (s : String) : CVSSMetrics :=
  (split_on_char '/' (strip_header s)).foldl apply_component {}

/-- Python's `sep.join(parts)`. -/
def join_with (sep : String) : List String → String
  | [] => ""
  | [x] => x
  | x :: y :: xs => x ++ sep ++ join_with sep (y :: xs)

/-- `CVSSCalculator.generate_vector_string`: the eight base components in
fixed order, then `E`/`RL`/`RC` components for each temporal metric that is
truthy (set and non-empty), joined with `"/"` after the `"CVSS:3.1/"`
header. -/
def generate_vector_string (m : CVSSMetrics) : String :=
  let vector_parts : List String :=
    ["AV:" ++ m.attack_vector, "AC:" ++ m.attack_complexity,
     "PR:" ++ m.privileges_required, "UI:" ++ m.user_interaction,
     "S:" ++ m.scope, "C:" ++ m.confidentiality,
     "I:" ++ m.integrity, "A:" ++ m.availability]
    ++ (match m.exploit_code_maturity with
        | some e => if e.data = [] then [] else ["E:" ++ e]
        | none => [])
    ++ (match m.remediation_level with
        | some rl => if rl.data = [] then [] else ["RL:" ++ rl]
        | none => [])
    ++ (match m.report_confidence with
        | some rc => if rc.data = [] then [] else ["RC:" ++ rc]
        | none => [])
  "CVSS:3.1/" ++ join_with "/" vector_parts

/-- The enumerated domain of `attack_vector`. -/
def av_domain : List String := ["N", "A", "L", "P"]

/-- The enumerated domain of `attack_complexity`. -/
def ac_domain : List String := ["H", "L"]

/-- The enumerated domain of `privileges_required`. -/
def pr_domain : List String := ["N", "L", "H"]

/-- The enumerated domain of `user_interaction`. -/
def ui_domain : List String := ["N", "R"]

/-- The enumerated domain of `scope`. -/
def scope_domain : List String := ["U", "C"]

/-- The shared enumerated domain of the three impact metrics. -/
def cia_domain : List String := ["N", "L", "H"]

/-- The enumerated domain of `exploit_code_maturity`. -/
def e_domain : List String := ["X", "H", "F", "P", "U"]

/-- The enumerated domain of `remediation_level`. -/
def rl_domain : List String := ["X", "U", "W", "T", "O"]

/-- The enumerated domain of `report_confidence`. -/
def rc_domain : List String := ["X", "C", "R", "U"]

/-- All eight base metric fields hold in-domain enumerated codes. -/
def ValidBase (m : CVSSMetrics) : Prop :=
  m.attack_vector ∈ av_domain ∧ m.attack_complexity ∈ ac_domain ∧
  m.privileges_required ∈ pr_domain ∧ m.user_interaction ∈ ui_domain ∧
  m.scope ∈ scope_domain ∧ m.confidentiality ∈ cia_domain ∧
  m.integrity ∈ cia_domain ∧ m.availability ∈ cia_domain

instance (m : CVSSMetrics) : Decidable (ValidBase m) := by
  unfold ValidBase; infer_instance


/-! ## Arithmetic facts about the rounding rule and the weight tables -/

theorem pyRound_le (x : ℚ) : (pyRound x : ℚ) ≤ x + 1/2 := by
  have hf := Int.floor_le x
  have hf2 := Int.lt_floor_add_one x
  unfold pyRound
  split_ifs with h1 h2 h3 <;> push_cast <;> linarith

theorem le_pyRound (x : ℚ) : x - 1/2 ≤ (pyRound x : ℚ) := by
  have hf := Int.floor_le x
  have hf2 := Int.lt_floor_add_one x
  unfold pyRound
  split_ifs with h1 h2 h3 <;> push_cast <;> linarith

theorem av_weight_mem (s : String) (h : s ∈ av_domain) :
    ∃ w, av_weight s = some w ∧ 0 < w ∧ w ≤ 1 := by
  simp only [av_domain, List.mem_cons, List.not_mem_nil, or_false] at h
  rcases h with rfl | rfl | rfl | rfl
  · exact ⟨85/100, by simp +decide [av_weight], by norm_num, by norm_num⟩
  · exact ⟨62/100, by simp +decide [av_weight], by norm_num, by norm_num⟩
  · exact ⟨55/100, by simp +decide [av_weight], by norm_num, by norm_num⟩
  · exact ⟨2/10, by simp +decide [av_weight], by norm_num, by norm_num⟩

theorem ac_weight_mem (s : String) (h : s ∈ ac_domain) :
    ∃ w, ac_weight s = some w ∧ 0 < w ∧ w ≤ 1 := by
  simp only [ac_domain, List.mem_cons, List.not_mem_nil, or_false] at h
  rcases h with rfl | rfl
  · exact ⟨44/100, by simp +decide [ac_weight], by norm_num, by norm_num⟩
  · exact ⟨77/100, by simp +decide [ac_weight], by norm_num, by norm_num⟩

theorem pr_weight_mem (sc pr : String) (hs : sc ∈ scope_domain) (h : pr ∈ pr_domain) :
    ∃ w, pr_weight sc pr = some w ∧ 0 < w ∧ w ≤ 1 := by
  simp only [scope_domain, pr_domain, List.mem_cons, List.not_mem_nil, or_false] at hs h
  rcases hs with rfl | rfl <;> rcases h with rfl | rfl | rfl
  · exact ⟨85/100, by simp +decide [pr_weight], by norm_num, by norm_num⟩
  · exact ⟨62/100, by simp +decide [pr_weight], by norm_num, by norm_num⟩
  · exact ⟨27/100, by simp +decide [pr_weight], by norm_num, by norm_num⟩
  · exact ⟨85/100, by simp +decide [pr_weight], by norm_num, by norm_num⟩
  · exact ⟨68/100, by simp +decide [pr_weight], by norm_num, by norm_num⟩
  · exact ⟨5/10, by simp +decide [pr_weight], by norm_num, by norm_num⟩

theorem ui_weight_mem (s : String) (h : s ∈ ui_domain) :
    ∃ w, ui_weight s = some w ∧ 0 < w ∧ w ≤ 1 := by
  simp only [ui_domain, List.mem_cons, List.not_mem_nil, or_false] at h
  rcases h with rfl | rfl
  · exact ⟨85/100, by simp +decide [ui_weight], by norm_num, by norm_num⟩
  · exact ⟨62/100, by simp +decide [ui_weight], by norm_num, by norm_num⟩

theorem cia_weight_mem (s : String) (h : s ∈ cia_domain) :
    ∃ w, cia_weight s = some w ∧ 0 ≤ w ∧ w ≤ 56/100 := by
  simp only [cia_domain, List.mem_cons, List.not_mem_nil, or_false] at h
  rcases h with rfl | rfl | rfl
  · exact ⟨0, by simp +decide [cia_weight], by norm_num, by norm_num⟩
  · exact ⟨22/100, by simp +decide [cia_weight], by norm_num, by norm_num⟩
  · exact ⟨56/100, by simp +decide [cia_weight], by norm_num, by norm_num⟩

theorem e_weight_bounds (s : String) : 0 ≤ e_weight s ∧ e_weight s ≤ 1 := by
  unfold e_weight; split_ifs <;> norm_num

theorem rl_weight_bounds (s : String) : 0 ≤ rl_weight s ∧ rl_weight s ≤ 1 := by
  unfold rl_weight; split_ifs <;> norm_num

theorem rc_weight_bounds (s : String) : 0 ≤ rc_weight s ∧ rc_weight s ≤ 1 := by
  unfold rc_weight; split_ifs <;> norm_num

/-! ## Sub-score facts for vectors whose base fields are in-domain -/

theorem exploitability_some (m : CVSSMetrics) (h : ValidBase m) :
    ∃ e, calculate_exploitability_subscore m = some e ∧ 0 ≤ e := by
  obtain ⟨hav, hac, hpr, hui, hs, -, -, -⟩ := h
  obtain ⟨wav, h1, h1p, -⟩ := av_weight_mem _ hav
  obtain ⟨wac, h2, h2p, -⟩ := ac_weight_mem _ hac
  obtain ⟨wpr, h3, h3p, -⟩ := pr_weight_mem _ _ hs hpr
  obtain ⟨wui, h4, h4p, -⟩ := ui_weight_mem _ hui
  refine ⟨(822/100 : ℚ) * wav * wac * wpr * wui, ?_, ?_⟩
  · simp [calculate_exploitability_subscore, h1, h2, h3, h4]
  · positivity

theorem impact_some (m : CVSSMetrics) (h : ValidBase m) :
    ∃ v, calculate_impact_subscore m = some v := by
  obtain ⟨-, -, -, -, -, hc, hi, ha⟩ := h
  obtain ⟨wc, h1, -, -⟩ := cia_weight_mem _ hc
  obtain ⟨wi, h2, -, -⟩ := cia_weight_mem _ hi
  obtain ⟨wa, h3, -, -⟩ := cia_weight_mem _ ha
  simp only [calculate_impact_subscore, h1, h2, h3, Option.bind_eq_bind,
    Option.some_bind]
  split <;> exact ⟨_, rfl⟩

/-! ## Base score: range, rounding granularity, and the zero-impact exit -/

/-- C7: for every metric vector whose eight base fields hold in-domain
codes, `calculate_base_score` returns a score in `[0, 10]` that is an exact
multiple of `0.1` (an integer divided by ten, produced by the
`round(x*10)/10` rule). -/
theorem c7_base_score_range (m : CVSSMetrics) (h : ValidBase m) :
    ∃ s, calculate_base_score m = some s ∧ 0 ≤ s ∧ s ≤ 10 ∧
      ∃ n : ℤ, s = (n : ℚ) / 10 := by
  obtain ⟨v, hv⟩ := impact_some m h
  obtain ⟨e, he, he0⟩ := exploitability_some m h
  by_cases hv0 : v ≤ 0
  · refine ⟨0, ?_, le_rfl, by norm_num, 0, by norm_num⟩
    simp [calculate_base_score, hv, he, hv0]
  · push_neg at hv0
    set B : ℚ :=
      (if m.scope = "U" then
        min 10 ((752/100 : ℚ) * v + (44/100 : ℚ) * e)
      else
        min 10 ((752/100 : ℚ) * (v + (18/100 : ℚ)) + (44/100 : ℚ) * e)) with hB
    have hBpos : 0 < B := by
      rw [hB]; split_ifs
      · refine lt_min (by norm_num) ?_
        nlinarith
      · refine lt_min (by norm_num) ?_
        nlinarith
    have hBle : B ≤ 10 := by
      rw [hB]; split_ifs <;> exact min_le_left _ _
    have h1 := pyRound_le (B * 10)
    have h2 := le_pyRound (B * 10)
    have hB10pos : 0 < B * 10 := by nlinarith
    have hB10le : B * 10 ≤ 100 := by nlinarith
    have hn0 : 0 ≤ pyRound (B * 10) := by
      have hq : (-1 : ℚ) < (pyRound (B * 10) : ℚ) := by linarith
      have hz : (-1 : ℤ) < pyRound (B * 10) := by exact_mod_cast hq
      omega
    have hn100 : pyRound (B * 10) ≤ 100 := by
      have hq : ((pyRound (B * 10) : ℚ)) < 101 := by linarith
      have hz : pyRound (B * 10) < 101 := by exact_mod_cast hq
      omega
    refine ⟨(pyRound (B * 10) : ℚ) / 10, ?_, ?_, ?_, pyRound (B * 10), rfl⟩
    · unfold calculate_base_score
      rw [hv, he]
      simp only [Option.bind_eq_bind, Option.some_bind]
      rw [if_neg hv0.not_le, hB]
      rfl
    · have : (0 : ℚ) ≤ (pyRound (B * 10) : ℚ) := by exact_mod_cast hn0
      linarith
    · have : ((pyRound (B * 10) : ℚ)) ≤ 100 := by exact_mod_cast hn100
      linarith

/-- C3: with in-domain base fields, a non-positive impact sub-score makes
the base score exactly `0`; in particular confidentiality, integrity and
availability all `"N"` give base score `0` whatever the exploitability
metrics and the scope are. -/
theorem c3_iss_nonpositive (m : CVSSMetrics) (h : ValidBase m) :
    (∀ v, calculate_impact_subscore m = some v → v ≤ 0 →
      calculate_base_score m = some 0) ∧
    (m.confidentiality = "N" → m.integrity = "N" → m.availability = "N" →
      calculate_base_score m = some 0) := by
  obtain ⟨e, he, -⟩ := exploitability_some m h
  have key : ∀ v, calculate_impact_subscore m = some v → v ≤ 0 →
      calculate_base_score m = some 0 := by
    intro v hv hv0
    simp [calculate_base_score, hv, he, hv0]
  refine ⟨key, ?_⟩
  intro h1 h2 h3
  obtain ⟨v, hv⟩ := impact_some m h
  refine key v hv ?_
  by_cases hsc : m.scope = "U"
  · simp +decide [calculate_impact_subscore, cia_weight, h1, h2, h3, hsc] at hv
    linarith [hv]
  · have hS := h.2.2.2.2.1
    simp only [scope_domain, List.mem_cons, List.not_mem_nil, or_false] at hS
    rcases hS with hU | hC
    · exact absurd hU hsc
    · simp +decide [calculate_impact_subscore, cia_weight, h1, h2, h3, hC] at hv
      norm_num at hv
      linarith [hv]

/-! ## C1: the spec's "Low" scenario evaluated on the code -/

/-- The metric vector `AV:L/AC:H/PR:H/UI:R/S:U/C:L/I:N/A:N` of the spec's
concrete "Low" scenario, with no temporal metrics set. -/
def low_scenario_vector : CVSSMetrics :=
  { attack_vector := "L", attack_complexity := "H", privileges_required := "H",
    user_interaction := "R", scope := "U", confidentiality := "L",
    integrity := "N", availability := "N" }

/-- C1: on the vector `AV:L/AC:H/PR:H/UI:R/S:U/C:L/I:N/A:N` the code
returns base score `10.0` and severity `"Critical"`, not a score in
`[0.1, 3.9]` with severity `"Low"` as the specification claims: the code
computes `min(10, 7.52·ISS + 0.44·ESS)` with `ISS = 6.42·0.22 = 1.4124`,
which already exceeds `10`. -/
theorem c1_low_scenario_code_behavior :
    calculate_base_score low_scenario_vector = some 10 ∧
    score_to_severity 10 = "Critical" := by
  constructor
  · norm_num +decide [calculate_base_score, calculate_impact_subscore,
      calculate_exploitability_subscore, av_weight, ac_weight, pr_weight,
      ui_weight, cia_weight, pyRound, low_scenario_vector]
  · norm_num [score_to_severity]

/-! ## C2: out-of-domain values are accepted at construction time -/

/-- C2 counterexample: constructing a metrics object with the out-of-domain
attack vector `"Z"` succeeds and silently stores the value — no
`InvalidMetricValue` error exists at construction/mutation time. -/
theorem c2_counterexample :
    ({ cvss_default with attack_vector := "Z" } : CVSSMetrics).attack_vector = "Z" ∧
    "Z" ∉ av_domain :=
  ⟨rfl, by decide⟩

/-- C2 amended: an out-of-domain `attack_vector` value is silently accepted
at construction/mutation time and the failure surfaces only at scoring
time, when the weight lookup fails (`calculate_base_score` returns no
value, the `KeyError` of the source). -/
theorem c2_amended_deferred_failure (s : String) (m : CVSSMetrics)
    (h : s ∉ av_domain) :
    ({ m with attack_vector := s } : CVSSMetrics).attack_vector = s ∧
    calculate_base_score { m with attack_vector := s } = none := by
  refine ⟨rfl, ?_⟩
  have hav : av_weight s = none := by
    simp only [av_domain, List.mem_cons, List.not_mem_nil, or_false, not_or] at h
    obtain ⟨h1, h2, h3, h4⟩ := h
    simp [av_weight, h1, h2, h3, h4]
  have hexp : calculate_exploitability_subscore { m with attack_vector := s } = none := by
    simp [calculate_exploitability_subscore, hav]
  rcases himp : calculate_impact_subscore { m with attack_vector := s } with _ | v
  · simp [calculate_base_score, himp]
  · simp [calculate_base_score, himp, hexp]

theorem c2_amended_witness :
    ({ cvss_default with attack_vector := "Z" } : CVSSMetrics).attack_vector = "Z" ∧
    calculate_base_score { cvss_default with attack_vector := "Z" } = none :=
  c2_amended_deferred_failure "Z" cvss_default (by decide)

/-! ## C4 and C8: the temporal score -/

/-- C4: if any of the three temporal metrics is unset, the temporal score
is the base score unchanged — no partial application of temporal weights. -/
theorem c4_temporal_unset (b : ℚ) (m : CVSSMetrics)
    (h : m.exploit_code_maturity = none ∨ m.remediation_level = none ∨
      m.report_confidence = none) :
    calculate_temporal_score b m = b := by
  rcases hE : m.exploit_code_maturity with _ | e <;>
    rcases hR : m.remediation_level with _ | r <;>
      rcases hC : m.report_confidence with _ | c <;>
        simp_all [calculate_temporal_score]

theorem c4_witness :
    calculate_temporal_score 5
      ({ exploit_code_maturity := some "F" } : CVSSMetrics) = 5 :=
  c4_temporal_unset 5 _ (Or.inr (Or.inl rfl))

/-- C8: for a nonnegative base score that is a multiple of `0.1` and a
vector with all three temporal metrics set to arbitrary strings, the
temporal score never exceeds the base score: every temporal weight
(including the fallback weight `1` for unrecognized codes) is at most `1`,
and the rounding rule cannot raise `round(x*10)/10` above a multiple of
`0.1`. -/
theorem c8_temporal_le_base (b : ℚ) (m : CVSSMetrics) (e rl rc : String)
    (hb : 0 ≤ b) (hmul : ∃ n : ℤ, b = (n : ℚ) / 10)
    (hE : m.exploit_code_maturity = some e)
    (hR : m.remediation_level = some rl)
    (hC : m.report_confidence = some rc) :
    calculate_temporal_score b m ≤ b := by
  obtain ⟨n, rfl⟩ := hmul
  unfold calculate_temporal_score
  rw [hE, hR, hC]
  dsimp only
  split_ifs with hemp
  · exact le_rfl
  · obtain ⟨he0, he1⟩ := e_weight_bounds e
    obtain ⟨hr0, hr1⟩ := rl_weight_bounds rl
    obtain ⟨hc0, hc1⟩ := rc_weight_bounds rc
    have hp1 : (n : ℚ)/10 * e_weight e ≤ (n : ℚ)/10 :=
      mul_le_of_le_one_right hb he1
    have hp1n : 0 ≤ (n : ℚ)/10 * e_weight e := mul_nonneg hb he0
    have hp2 : (n : ℚ)/10 * e_weight e * rl_weight rl ≤ (n : ℚ)/10 :=
      le_trans (mul_le_of_le_one_right hp1n hr1) hp1
    have hp2n : 0 ≤ (n : ℚ)/10 * e_weight e * rl_weight rl :=
      mul_nonneg hp1n hr0
    have hp3 : (n : ℚ)/10 * e_weight e * rl_weight rl * rc_weight rc ≤ (n : ℚ)/10 :=
      le_trans (mul_le_of_le_one_right hp2n hc1) hp2
    have h10 : ((n : ℚ)/10) * 10 = (n : ℚ) := div_mul_cancel₀ _ (by norm_num)
    have hle : (n : ℚ)/10 * e_weight e * rl_weight rl * rc_weight rc * 10 ≤ (n : ℚ) := by
      nlinarith [hp3]
    have h1 := pyRound_le ((n : ℚ)/10 * e_weight e * rl_weight rl * rc_weight rc * 10)
    have hZ : pyRound ((n : ℚ)/10 * e_weight e * rl_weight rl * rc_weight rc * 10) ≤ n := by
      have hq : (pyRound ((n : ℚ)/10 * e_weight e * rl_weight rl * rc_weight rc * 10) : ℚ) <
          (n : ℚ) + 1 := by linarith
      have hz : pyRound ((n : ℚ)/10 * e_weight e * rl_weight rl * rc_weight rc * 10) <
          n + 1 := by exact_mod_cast hq
      omega
    have hq2 : (pyRound ((n : ℚ)/10 * e_weight e * rl_weight rl * rc_weight rc * 10) : ℚ) ≤
        (n : ℚ) := by exact_mod_cast hZ
    linarith

theorem c8_witness :
    calculate_temporal_score 5
      ({ exploit_code_maturity := some "F", remediation_level := some "O",
         report_confidence := some "R" } : CVSSMetrics) ≤ 5 :=
  c8_temporal_le_base 5 _ "F" "O" "R" (by norm_num)
    ⟨50, by norm_num⟩ rfl rfl rfl

/-! ## C6 and C10: the severity classification -/

/-- C6: the severity table — `"None"` at `0`, `"Low"` on `[0.1, 3.9]`,
`"Medium"` on `[4.0, 6.9]`, `"High"` on `[7.0, 8.9]`, `"Critical"` on
`[9.0, 10.0]`, with the boundary pairs `3.9`/`4.0`, `6.9`/`7.0` and
`8.9`/`9.0` mapping to the adjacent labels. -/
theorem c6_severity_table :
    score_to_severity 0 = "None" ∧
    (∀ s : ℚ, 1/10 ≤ s → s ≤ 39/10 → score_to_severity s = "Low") ∧
    (∀ s : ℚ, 4 ≤ s → s ≤ 69/10 → score_to_severity s = "Medium") ∧
    (∀ s : ℚ, 7 ≤ s → s ≤ 89/10 → score_to_severity s = "High") ∧
    (∀ s : ℚ, 9 ≤ s → s ≤ 10 → score_to_severity s = "Critical") ∧
    score_to_severity (39/10) = "Low" ∧ score_to_severity 4 = "Medium" ∧
    score_to_severity (69/10) = "Medium" ∧ score_to_severity 7 = "High" ∧
    score_to_severity (89/10) = "High" ∧ score_to_severity 9 = "Critical" := by
  refine ⟨by norm_num [score_to_severity], ?_, ?_, ?_, ?_,
    by norm_num [score_to_severity], by norm_num [score_to_severity],
    by norm_num [score_to_severity], by norm_num [score_to_severity],
    by norm_num [score_to_severity], by norm_num [score_to_severity]⟩
  · intro s h1 h2
    unfold score_to_severity
    split_ifs with hA hB <;>
      first
      | rfl
      | exact absurd (hA ▸ h1) (by norm_num)
      | exact absurd ⟨h1, h2⟩ hB
  · intro s h1 h2
    unfold score_to_severity
    split_ifs with hA hB hC <;>
      first
      | rfl
      | exact absurd (hA ▸ h1) (by norm_num)
      | exact absurd ⟨h1, h2⟩ hC
      | (exfalso; linarith [hB.2])
  · intro s h1 h2
    unfold score_to_severity
    split_ifs with hA hB hC hD <;>
      first
      | rfl
      | exact absurd (hA ▸ h1) (by norm_num)
      | exact absurd ⟨h1, h2⟩ hD
      | (exfalso; linarith [hB.2])
      | (exfalso; linarith [hC.2])
  · intro s h1 h2
    unfold score_to_severity
    split_ifs with hA hB hC hD <;>
      first
      | rfl
      | exact absurd (hA ▸ h1) (by norm_num)
      | (exfalso; linarith [hB.2])
      | (exfalso; linarith [hC.2])
      | (exfalso; linarith [hD.2])

theorem c6_witness :
    score_to_severity 2 = "Low" ∧ score_to_severity 5 = "Medium" ∧
    score_to_severity 8 = "High" ∧ score_to_severity (95/10) = "Critical" :=
  ⟨c6_severity_table.2.1 2 (by norm_num) (by norm_num),
   c6_severity_table.2.2.1 5 (by norm_num) (by norm_num),
   c6_severity_table.2.2.2.1 8 (by norm_num) (by norm_num),
   c6_severity_table.2.2.2.2.1 (95/10) (by norm_num) (by norm_num)⟩

/-- C10: `score_to_severity` is total — it always returns one of the five
labels — and returns `"Critical"` for every score matching none of the
`None`/`Low`/`Medium`/`High` brackets, such as negative scores and scores
strictly between adjacent brackets. -/
theorem c10_severity_total :
    (∀ s : ℚ, score_to_severity s ∈
      (["None", "Low", "Medium", "High", "Critical"] : List String)) ∧
    (∀ s : ℚ, ¬ s = 0 → ¬(1/10 ≤ s ∧ s ≤ 39/10) → ¬(4 ≤ s ∧ s ≤ 69/10) →
      ¬(7 ≤ s ∧ s ≤ 89/10) → score_to_severity s = "Critical") := by
  constructor
  · intro s
    unfold score_to_severity
    split_ifs <;> simp
  · intro s h0 h1 h2 h3
    unfold score_to_severity
    rw [if_neg h0, if_neg h1, if_neg h2, if_neg h3]

theorem c10_witness :
    score_to_severity (395/100) = "Critical" ∧
    score_to_severity (-1) = "Critical" :=
  ⟨c10_severity_total.2 (395/100) (by norm_num) (by norm_num) (by norm_num)
    (by norm_num),
   c10_severity_total.2 (-1) (by norm_num) (by norm_num) (by norm_num)
    (by norm_num)⟩

/-! ## Witnesses for the base-score theorems -/

theorem c7_witness :
    ValidBase cvss_default ∧
    ∃ s, calculate_base_score cvss_default = some s ∧ 0 ≤ s ∧ s ≤ 10 ∧
      ∃ n : ℤ, s = (n : ℚ) / 10 :=
  ⟨by decide, c7_base_score_range cvss_default (by decide)⟩

theorem c3_witness :
    calculate_base_score cvss_default = some 0 :=
  (c3_iss_nonpositive cvss_default (by decide)).2 rfl rfl rfl

/-! ## Structure of `split_on_char` and the component assignments -/

theorem split_no_sep (sep : Char) (l : List Char) (h : sep ∉ l) :
    split_on_char sep l = [l] := by
  induction l with
  | nil => rfl
  | cons c cs ih =>
    simp only [List.mem_cons, not_or] at h
    rw [split_on_char, if_neg (fun e => h.1 e.symm), ih h.2]

theorem split_sep_append (sep : Char) (xs ys : List Char) (h : sep ∉ xs) :
    split_on_char sep (xs ++ sep :: ys) = xs :: split_on_char sep ys := by
  induction xs with
  | nil => simp [split_on_char]
  | cons c cs ih =>
    simp only [List.mem_cons, not_or] at h
    rw [List.cons_append, split_on_char, if_neg (fun e => h.1 e.symm), ih h.2]

theorem split_colon_comp (k : List Char) (c : Char) (hk : ':' ∉ k) (hc : ':' ≠ c) :
    split_on_char ':' (k ++ ':' :: [c]) = [k, [c]] := by
  rw [split_sep_append ':' k [c] hk, split_no_sep ':' [c] (by simpa using hc)]

theorem apply_AV (m : CVSSMetrics) (c : Char) (hc : ':' ≠ c) :
    apply_component m ('A' :: 'V' :: ':' :: [c]) =
      { m with attack_vector := String.mk [c] } := by
  have hs : split_on_char ':' ('A' :: 'V' :: ':' :: [c]) = [['A','V'], [c]] :=
    split_colon_comp ['A','V'] c (by decide) hc
  simp +decide [apply_component, hs]

theorem apply_AC (m : CVSSMetrics) (c : Char) (hc : ':' ≠ c) :
    apply_component m ('A' :: 'C' :: ':' :: [c]) =
      { m with attack_complexity := String.mk [c] } := by
  have hs : split_on_char ':' ('A' :: 'C' :: ':' :: [c]) = [['A','C'], [c]] :=
    split_colon_comp ['A','C'] c (by decide) hc
  simp +decide [apply_component, hs]

theorem apply_PR (m : CVSSMetrics) (c : Char) (hc : ':' ≠ c) :
    apply_component m ('P' :: 'R' :: ':' :: [c]) =
      { m with privileges_required := String.mk [c] } := by
  have hs : split_on_char ':' ('P' :: 'R' :: ':' :: [c]) = [['P','R'], [c]] :=
    split_colon_comp ['P','R'] c (by decide) hc
  simp +decide [apply_component, hs]

theorem apply_UI (m : CVSSMetrics) (c : Char) (hc : ':' ≠ c) :
    apply_component m ('U' :: 'I' :: ':' :: [c]) =
      { m with user_interaction := String.mk [c] } := by
  have hs : split_on_char ':' ('U' :: 'I' :: ':' :: [c]) = [['U','I'], [c]] :=
    split_colon_comp ['U','I'] c (by decide) hc
  simp +decide [apply_component, hs]

theorem apply_S (m : CVSSMetrics) (c : Char) (hc : ':' ≠ c) :
    apply_component m ('S' :: ':' :: [c]) = { m with scope := String.mk [c] } := by
  have hs : split_on_char ':' ('S' :: ':' :: [c]) = [['S'], [c]] :=
    split_colon_comp ['S'] c (by decide) hc
  simp +decide [apply_component, hs]

theorem apply_C (m : CVSSMetrics) (c : Char) (hc : ':' ≠ c) :
    apply_component m ('C' :: ':' :: [c]) =
      { m with confidentiality := String.mk [c] } := by
  have hs : split_on_char ':' ('C' :: ':' :: [c]) = [['C'], [c]] :=
    split_colon_comp ['C'] c (by decide) hc
  simp +decide [apply_component, hs]

theorem apply_I (m : CVSSMetrics) (c : Char) (hc : ':' ≠ c) :
    apply_component m ('I' :: ':' :: [c]) = { m with integrity := String.mk [c] } := by
  have hs : split_on_char ':' ('I' :: ':' :: [c]) = [['I'], [c]] :=
    split_colon_comp ['I'] c (by decide) hc
  simp +decide [apply_component, hs]

theorem apply_A (m : CVSSMetrics) (c : Char) (hc : ':' ≠ c) :
    apply_component m ('A' :: ':' :: [c]) =
      { m with availability := String.mk [c] } := by
  have hs : split_on_char ':' ('A' :: ':' :: [c]) = [['A'], [c]] :=
    split_colon_comp ['A'] c (by decide) hc
  simp +decide [apply_component, hs]

theorem apply_E (m : CVSSMetrics) (c : Char) (hc : ':' ≠ c) :
    apply_component m ('E' :: ':' :: [c]) =
      { m with exploit_code_maturity := some (String.mk [c]) } := by
  have hs : split_on_char ':' ('E' :: ':' :: [c]) = [['E'], [c]] :=
    split_colon_comp ['E'] c (by decide) hc
  simp +decide [apply_component, hs]

theorem apply_RL (m : CVSSMetrics) (c : Char) (hc : ':' ≠ c) :
    apply_component m ('R' :: 'L' :: ':' :: [c]) =
      { m with remediation_level := some (String.mk [c]) } := by
  have hs : split_on_char ':' ('R' :: 'L' :: ':' :: [c]) = [['R','L'], [c]] :=
    split_colon_comp ['R','L'] c (by decide) hc
  simp +decide [apply_component, hs]

theorem apply_RC (m : CVSSMetrics) (c : Char) (hc : ':' ≠ c) :
    apply_component m ('R' :: 'C' :: ':' :: [c]) =
      { m with report_confidence := some (String.mk [c]) } := by
  have hs : split_on_char ':' ('R' :: 'C' :: ':' :: [c]) = [['R','C'], [c]] :=
    split_colon_comp ['R','C'] c (by decide) hc
  simp +decide [apply_component, hs]

/-! ## Evaluating the codec on single-character field codes -/

theorem generate_base_chars (m : CVSSMetrics)
    (c1 c2 c3 c4 c5 c6 c7 c8 : Char)
    (h1 : m.attack_vector = String.mk [c1])
    (h2 : m.attack_complexity = String.mk [c2])
    (h3 : m.privileges_required = String.mk [c3])
    (h4 : m.user_interaction = String.mk [c4])
    (h5 : m.scope = String.mk [c5])
    (h6 : m.confidentiality = String.mk [c6])
    (h7 : m.integrity = String.mk [c7])
    (h8 : m.availability = String.mk [c8])
    (hE : m.exploit_code_maturity = none)
    (hR : m.remediation_level = none)
    (hC : m.report_confidence = none) :
    generate_vector_string m = String.mk
      ('C' :: 'V' :: 'S' :: 'S' :: ':' :: '3' :: '.' :: '1' :: '/' ::
       'A' :: 'V' :: ':' :: c1:: '/' :: 'A' :: 'C' :: ':' :: c2:: '/' :: 'P' :: 'R' :: ':' :: c3:: '/' ::
       'U' :: 'I' :: ':' :: c4:: '/' :: 'S' :: ':' :: c5:: '/' :: 'C' :: ':' :: c6:: '/' ::
       'I' :: ':' :: c7:: '/' :: 'A' :: ':' :: c8:: []) := by
  rw [generate_vector_string, h1, h2, h3, h4, h5, h6, h7, h8, hE, hR, hC]
  rfl

theorem generate_full_chars (m : CVSSMetrics)
    (c1 c2 c3 c4 c5 c6 c7 c8 d1 d2 d3 : Char)
    (h1 : m.attack_vector = String.mk [c1])
    (h2 : m.attack_complexity = String.mk [c2])
    (h3 : m.privileges_required = String.mk [c3])
    (h4 : m.user_interaction = String.mk [c4])
    (h5 : m.scope = String.mk [c5])
    (h6 : m.confidentiality = String.mk [c6])
    (h7 : m.integrity = String.mk [c7])
    (h8 : m.availability = String.mk [c8])
    (hE : m.exploit_code_maturity = some (String.mk [d1]))
    (hR : m.remediation_level = some (String.mk [d2]))
    (hC : m.report_confidence = some (String.mk [d3])) :
    generate_vector_string m = String.mk
      ('C' :: 'V' :: 'S' :: 'S' :: ':' :: '3' :: '.' :: '1' :: '/' ::
       'A' :: 'V' :: ':' :: c1:: '/' :: 'A' :: 'C' :: ':' :: c2:: '/' :: 'P' :: 'R' :: ':' :: c3:: '/' ::
       'U' :: 'I' :: ':' :: c4:: '/' :: 'S' :: ':' :: c5:: '/' :: 'C' :: ':' :: c6:: '/' ::
       'I' :: ':' :: c7:: '/' :: 'A' :: ':' :: c8:: '/' ::
       'E' :: ':' :: d1:: '/' :: 'R' :: 'L' :: ':' :: d2:: '/' :: 'R' :: 'C' :: ':' :: d3:: []) := by
  rw [generate_vector_string, h1, h2, h3, h4, h5, h6, h7, h8, hE, hR, hC]
  rfl

theorem parse_base_chars (c1 c2 c3 c4 c5 c6 c7 c8 : Char)
    (s1 : '/' ≠ c1) (s2 : '/' ≠ c2) (s3 : '/' ≠ c3) (s4 : '/' ≠ c4)
    (s5 : '/' ≠ c5) (s6 : '/' ≠ c6) (s7 : '/' ≠ c7) (s8 : '/' ≠ c8)
    (t1 : ':' ≠ c1) (t2 : ':' ≠ c2) (t3 : ':' ≠ c3) (t4 : ':' ≠ c4)
    (t5 : ':' ≠ c5) (t6 : ':' ≠ c6) (t7 : ':' ≠ c7) (t8 : ':' ≠ c8) :
    parse_vector_string (String.mk
      ('C' :: 'V' :: 'S' :: 'S' :: ':' :: '3' :: '.' :: '1' :: '/' ::
       'A' :: 'V' :: ':' :: c1:: '/' :: 'A' :: 'C' :: ':' :: c2:: '/' :: 'P' :: 'R' :: ':' :: c3:: '/' ::
       'U' :: 'I' :: ':' :: c4:: '/' :: 'S' :: ':' :: c5:: '/' :: 'C' :: ':' :: c6:: '/' ::
       'I' :: ':' :: c7:: '/' :: 'A' :: ':' :: c8:: [])) =
    { attack_vector := String.mk [c1], attack_complexity := String.mk [c2],
      privileges_required := String.mk [c3], user_interaction := String.mk [c4],
      scope := String.mk [c5], confidentiality := String.mk [c6],
      integrity := String.mk [c7], availability := String.mk [c8] } := by
  have m1 : '/' ∉ ['A','V',':',c1] := by
    simp only [List.mem_cons, List.not_mem_nil, or_false, not_or]
    exact ⟨by decide, by decide, by decide, s1⟩
  have m2 : '/' ∉ ['A','C',':',c2] := by
    simp only [List.mem_cons, List.not_mem_nil, or_false, not_or]
    exact ⟨by decide, by decide, by decide, s2⟩
  have m3 : '/' ∉ ['P','R',':',c3] := by
    simp only [List.mem_cons, List.not_mem_nil, or_false, not_or]
    exact ⟨by decide, by decide, by decide, s3⟩
  have m4 : '/' ∉ ['U','I',':',c4] := by
    simp only [List.mem_cons, List.not_mem_nil, or_false, not_or]
    exact ⟨by decide, by decide, by decide, s4⟩
  have m5 : '/' ∉ ['S',':',c5] := by
    simp only [List.mem_cons, List.not_mem_nil, or_false, not_or]
    exact ⟨by decide, by decide, s5⟩
  have m6 : '/' ∉ ['C',':',c6] := by
    simp only [List.mem_cons, List.not_mem_nil, or_false, not_or]
    exact ⟨by decide, by decide, s6⟩
  have m7 : '/' ∉ ['I',':',c7] := by
    simp only [List.mem_cons, List.not_mem_nil, or_false, not_or]
    exact ⟨by decide, by decide, s7⟩
  have m8 : '/' ∉ ['A',':',c8] := by
    simp only [List.mem_cons, List.not_mem_nil, or_false, not_or]
    exact ⟨by decide, by decide, s8⟩
  have e1 : split_on_char '/'
      ('A' :: 'V' :: ':' :: c1:: '/' :: 'A' :: 'C' :: ':' :: c2:: '/' :: 'P' :: 'R' :: ':' :: c3:: '/' ::
       'U' :: 'I' :: ':' :: c4:: '/' :: 'S' :: ':' :: c5:: '/' :: 'C' :: ':' :: c6:: '/' ::
       'I' :: ':' :: c7:: '/' :: 'A' :: ':' :: c8:: []) =
      ['A','V',':',c1] :: ['A','C',':',c2] :: ['P','R',':',c3] :: ['U','I',':',c4] ::
      ['S',':',c5] :: ['C',':',c6] :: ['I',':',c7] :: [['A',':',c8]] := by
    show split_on_char '/'
      (['A','V',':',c1] ++ '/' :: (['A','C',':',c2] ++ '/' :: (['P','R',':',c3] ++ '/' ::
       (['U','I',':',c4] ++ '/' :: (['S',':',c5] ++ '/' :: (['C',':',c6] ++ '/' ::
       (['I',':',c7] ++ '/' :: ['A',':',c8]))))))) = _
    rw [split_sep_append '/' _ _ m1, split_sep_append '/' _ _ m2,
      split_sep_append '/' _ _ m3, split_sep_append '/' _ _ m4,
      split_sep_append '/' _ _ m5, split_sep_append '/' _ _ m6,
      split_sep_append '/' _ _ m7, split_no_sep '/' _ m8]
  rw [parse_vector_string]
  show (split_on_char '/'
      ('A' :: 'V' :: ':' :: c1:: '/' :: 'A' :: 'C' :: ':' :: c2:: '/' :: 'P' :: 'R' :: ':' :: c3:: '/' ::
       'U' :: 'I' :: ':' :: c4:: '/' :: 'S' :: ':' :: c5:: '/' :: 'C' :: ':' :: c6:: '/' ::
       'I' :: ':' :: c7:: '/' :: 'A' :: ':' :: c8:: [])).foldl apply_component {} = _
  rw [e1]
  simp only [List.foldl_cons, List.foldl_nil]
  rw [apply_AV _ _ t1, apply_AC _ _ t2, apply_PR _ _ t3, apply_UI _ _ t4,
    apply_S _ _ t5, apply_C _ _ t6, apply_I _ _ t7, apply_A _ _ t8]

theorem parse_full_chars (c1 c2 c3 c4 c5 c6 c7 c8 d1 d2 d3 : Char)
    (s1 : '/' ≠ c1) (s2 : '/' ≠ c2) (s3 : '/' ≠ c3) (s4 : '/' ≠ c4)
    (s5 : '/' ≠ c5) (s6 : '/' ≠ c6) (s7 : '/' ≠ c7) (s8 : '/' ≠ c8)
    (u1 : '/' ≠ d1) (u2 : '/' ≠ d2) (u3 : '/' ≠ d3)
    (t1 : ':' ≠ c1) (t2 : ':' ≠ c2) (t3 : ':' ≠ c3) (t4 : ':' ≠ c4)
    (t5 : ':' ≠ c5) (t6 : ':' ≠ c6) (t7 : ':' ≠ c7) (t8 : ':' ≠ c8)
    (v1 : ':' ≠ d1) (v2 : ':' ≠ d2) (v3 : ':' ≠ d3) :
    parse_vector_string (String.mk
      ('C' :: 'V' :: 'S' :: 'S' :: ':' :: '3' :: '.' :: '1' :: '/' ::
       'A' :: 'V' :: ':' :: c1:: '/' :: 'A' :: 'C' :: ':' :: c2:: '/' :: 'P' :: 'R' :: ':' :: c3:: '/' ::
       'U' :: 'I' :: ':' :: c4:: '/' :: 'S' :: ':' :: c5:: '/' :: 'C' :: ':' :: c6:: '/' ::
       'I' :: ':' :: c7:: '/' :: 'A' :: ':' :: c8:: '/' ::
       'E' :: ':' :: d1:: '/' :: 'R' :: 'L' :: ':' :: d2:: '/' :: 'R' :: 'C' :: ':' :: d3:: [])) =
    { attack_vector := String.mk [c1], attack_complexity := String.mk [c2],
      privileges_required := String.mk [c3], user_interaction := String.mk [c4],
      scope := String.mk [c5], confidentiality := String.mk [c6],
      integrity := String.mk [c7], availability := String.mk [c8],
      exploit_code_maturity := some (String.mk [d1]),
      remediation_level := some (String.mk [d2]),
      report_confidence := some (String.mk [d3]) } := by
  have m1 : '/' ∉ ['A','V',':',c1] := by
    simp only [List.mem_cons, List.not_mem_nil, or_false, not_or]
    exact ⟨by decide, by decide, by decide, s1⟩
  have m2 : '/' ∉ ['A','C',':',c2] := by
    simp only [List.mem_cons, List.not_mem_nil, or_false, not_or]
    exact ⟨by decide, by decide, by decide, s2⟩
  have m3 : '/' ∉ ['P','R',':',c3] := by
    simp only [List.mem_cons, List.not_mem_nil, or_false, not_or]
    exact ⟨by decide, by decide, by decide, s3⟩
  have m4 : '/' ∉ ['U','I',':',c4] := by
    simp only [List.mem_cons, List.not_mem_nil, or_false, not_or]
    exact ⟨by decide, by decide, by decide, s4⟩
  have m5 : '/' ∉ ['S',':',c5] := by
    simp only [List.mem_cons, List.not_mem_nil, or_false, not_or]
    exact ⟨by decide, by decide, s5⟩
  have m6 : '/' ∉ ['C',':',c6] := by
    simp only [List.mem_cons, List.not_mem_nil, or_false, not_or]
    exact ⟨by decide, by decide, s6⟩
  have m7 : '/' ∉ ['I',':',c7] := by
    simp only [List.mem_cons, List.not_mem_nil, or_false, not_or]
    exact ⟨by decide, by decide, s7⟩
  have m8 : '/' ∉ ['A',':',c8] := by
    simp only [List.mem_cons, List.not_mem_nil, or_false, not_or]
    exact ⟨by decide, by decide, s8⟩
  have m9 : '/' ∉ ['E',':',d1] := by
    simp only [List.mem_cons, List.not_mem_nil, or_false, not_or]
    exact ⟨by decide, by decide, u1⟩
  have m10 : '/' ∉ ['R','L',':',d2] := by
    simp only [List.mem_cons, List.not_mem_nil, or_false, not_or]
    exact ⟨by decide, by decide, by decide, u2⟩
  have m11 : '/' ∉ ['R','C',':',d3] := by
    simp only [List.mem_cons, List.not_mem_nil, or_false, not_or]
    exact ⟨by decide, by decide, by decide, u3⟩
  have e1 : split_on_char '/'
      ('A' :: 'V' :: ':' :: c1:: '/' :: 'A' :: 'C' :: ':' :: c2:: '/' :: 'P' :: 'R' :: ':' :: c3:: '/' ::
       'U' :: 'I' :: ':' :: c4:: '/' :: 'S' :: ':' :: c5:: '/' :: 'C' :: ':' :: c6:: '/' ::
       'I' :: ':' :: c7:: '/' :: 'A' :: ':' :: c8:: '/' ::
       'E' :: ':' :: d1:: '/' :: 'R' :: 'L' :: ':' :: d2:: '/' :: 'R' :: 'C' :: ':' :: d3:: []) =
      ['A','V',':',c1] :: ['A','C',':',c2] :: ['P','R',':',c3] :: ['U','I',':',c4] ::
      ['S',':',c5] :: ['C',':',c6] :: ['I',':',c7] :: ['A',':',c8] ::
      ['E',':',d1] :: ['R','L',':',d2] :: [['R','C',':',d3]] := by
    show split_on_char '/'
      (['A','V',':',c1] ++ '/' :: (['A','C',':',c2] ++ '/' :: (['P','R',':',c3] ++ '/' ::
       (['U','I',':',c4] ++ '/' :: (['S',':',c5] ++ '/' :: (['C',':',c6] ++ '/' ::
       (['I',':',c7] ++ '/' :: (['A',':',c8] ++ '/' :: (['E',':',d1] ++ '/' ::
       (['R','L',':',d2] ++ '/' :: ['R','C',':',d3])))))))))) = _
    rw [split_sep_append '/' _ _ m1, split_sep_append '/' _ _ m2,
      split_sep_append '/' _ _ m3, split_sep_append '/' _ _ m4,
      split_sep_append '/' _ _ m5, split_sep_append '/' _ _ m6,
      split_sep_append '/' _ _ m7, split_sep_append '/' _ _ m8,
      split_sep_append '/' _ _ m9, split_sep_append '/' _ _ m10,
      split_no_sep '/' _ m11]
  rw [parse_vector_string]
  show (split_on_char '/'
      ('A' :: 'V' :: ':' :: c1:: '/' :: 'A' :: 'C' :: ':' :: c2:: '/' :: 'P' :: 'R' :: ':' :: c3:: '/' ::
       'U' :: 'I' :: ':' :: c4:: '/' :: 'S' :: ':' :: c5:: '/' :: 'C' :: ':' :: c6:: '/' ::
       'I' :: ':' :: c7:: '/' :: 'A' :: ':' :: c8:: '/' ::
       'E' :: ':' :: d1:: '/' :: 'R' :: 'L' :: ':' :: d2:: '/' :: 'R' :: 'C' :: ':' :: d3:: [])).foldl
      apply_component {} = _
  rw [e1]
  simp only [List.foldl_cons, List.foldl_nil]
  rw [apply_AV _ _ t1, apply_AC _ _ t2, apply_PR _ _ t3, apply_UI _ _ t4,
    apply_S _ _ t5, apply_C _ _ t6, apply_I _ _ t7, apply_A _ _ t8,
    apply_E _ _ v1, apply_RL _ _ v2, apply_RC _ _ v3]

/-! ## C5: the parse/generate round trip -/

/-- Every enumerated code appearing in any metric domain. -/
def all_codes : List String :=
  ["N", "A", "L", "P", "H", "R", "U", "C", "X", "F", "W", "T", "O"]

theorem code_char (s : String) (h : s ∈ all_codes) :
    ∃ c : Char, s = String.mk [c] ∧ '/' ≠ c ∧ ':' ≠ c := by
  simp only [all_codes, List.mem_cons, List.not_mem_nil, or_false] at h
  rcases h with rfl|rfl|rfl|rfl|rfl|rfl|rfl|rfl|rfl|rfl|rfl|rfl|rfl <;>
    exact ⟨_, rfl, by decide, by decide⟩

theorem av_sub_all (s : String) (h : s ∈ av_domain) : s ∈ all_codes := by
  simp only [av_domain, List.mem_cons, List.not_mem_nil, or_false] at h
  rcases h with rfl|rfl|rfl|rfl <;> decide

theorem ac_sub_all (s : String) (h : s ∈ ac_domain) : s ∈ all_codes := by
  simp only [ac_domain, List.mem_cons, List.not_mem_nil, or_false] at h
  rcases h with rfl|rfl <;> decide

theorem pr_sub_all (s : String) (h : s ∈ pr_domain) : s ∈ all_codes := by
  simp only [pr_domain, List.mem_cons, List.not_mem_nil, or_false] at h
  rcases h with rfl|rfl|rfl <;> decide

theorem ui_sub_all (s : String) (h : s ∈ ui_domain) : s ∈ all_codes := by
  simp only [ui_domain, List.mem_cons, List.not_mem_nil, or_false] at h
  rcases h with rfl|rfl <;> decide

theorem scope_sub_all (s : String) (h : s ∈ scope_domain) : s ∈ all_codes := by
  simp only [scope_domain, List.mem_cons, List.not_mem_nil, or_false] at h
  rcases h with rfl|rfl <;> decide

theorem cia_sub_all (s : String) (h : s ∈ cia_domain) : s ∈ all_codes := by
  simp only [cia_domain, List.mem_cons, List.not_mem_nil, or_false] at h
  rcases h with rfl|rfl|rfl <;> decide

theorem e_sub_all (s : String) (h : s ∈ e_domain) : s ∈ all_codes := by
  simp only [e_domain, List.mem_cons, List.not_mem_nil, or_false] at h
  rcases h with rfl|rfl|rfl|rfl|rfl <;> decide

theorem rl_sub_all (s : String) (h : s ∈ rl_domain) : s ∈ all_codes := by
  simp only [rl_domain, List.mem_cons, List.not_mem_nil, or_false] at h
  rcases h with rfl|rfl|rfl|rfl|rfl <;> decide

theorem rc_sub_all (s : String) (h : s ∈ rc_domain) : s ∈ all_codes := by
  simp only [rc_domain, List.mem_cons, List.not_mem_nil, or_false] at h
  rcases h with rfl|rfl|rfl|rfl <;> decide

/-- C5: for a fully-populated vector with in-domain base codes, and the
three temporal metrics either all unset or all set to in-domain codes,
parsing the generated vector string reproduces every base field and every
temporal field of the original vector. -/
theorem c5_roundtrip (m : CVSSMetrics) (hb : ValidBase m)
    (ht : (m.exploit_code_maturity = none ∧ m.remediation_level = none ∧
            m.report_confidence = none) ∨
          (∃ e ∈ e_domain, ∃ rl ∈ rl_domain, ∃ rc ∈ rc_domain,
            m.exploit_code_maturity = some e ∧ m.remediation_level = some rl ∧
            m.report_confidence = some rc)) :
    (parse_vector_string (generate_vector_string m)).attack_vector = m.attack_vector ∧
    (parse_vector_string (generate_vector_string m)).attack_complexity = m.attack_complexity ∧
    (parse_vector_string (generate_vector_string m)).privileges_required = m.privileges_required ∧
    (parse_vector_string (generate_vector_string m)).user_interaction = m.user_interaction ∧
    (parse_vector_string (generate_vector_string m)).scope = m.scope ∧
    (parse_vector_string (generate_vector_string m)).confidentiality = m.confidentiality ∧
    (parse_vector_string (generate_vector_string m)).integrity = m.integrity ∧
    (parse_vector_string (generate_vector_string m)).availability = m.availability ∧
    (parse_vector_string (generate_vector_string m)).exploit_code_maturity = m.exploit_code_maturity ∧
    (parse_vector_string (generate_vector_string m)).remediation_level = m.remediation_level ∧
    (parse_vector_string (generate_vector_string m)).report_confidence = m.report_confidence := by
  obtain ⟨hav, hac, hpr, hui, hsc, hco, hin, hva⟩ := hb
  obtain ⟨c1, q1, s1, t1⟩ := code_char _ (av_sub_all _ hav)
  obtain ⟨c2, q2, s2, t2⟩ := code_char _ (ac_sub_all _ hac)
  obtain ⟨c3, q3, s3, t3⟩ := code_char _ (pr_sub_all _ hpr)
  obtain ⟨c4, q4, s4, t4⟩ := code_char _ (ui_sub_all _ hui)
  obtain ⟨c5, q5, s5, t5⟩ := code_char _ (scope_sub_all _ hsc)
  obtain ⟨c6, q6, s6, t6⟩ := code_char _ (cia_sub_all _ hco)
  obtain ⟨c7, q7, s7, t7⟩ := code_char _ (cia_sub_all _ hin)
  obtain ⟨c8, q8, s8, t8⟩ := code_char _ (cia_sub_all _ hva)
  rcases ht with ⟨hE, hR, hC⟩ | ⟨e, he, rl, hrl, rc, hrc, hE, hR, hC⟩
  · rw [generate_base_chars m c1 c2 c3 c4 c5 c6 c7 c8 q1 q2 q3 q4 q5 q6 q7 q8 hE hR hC,
      parse_base_chars c1 c2 c3 c4 c5 c6 c7 c8 s1 s2 s3 s4 s5 s6 s7 s8
        t1 t2 t3 t4 t5 t6 t7 t8]
    exact ⟨q1.symm, q2.symm, q3.symm, q4.symm, q5.symm, q6.symm, q7.symm, q8.symm,
      hE.symm, hR.symm, hC.symm⟩
  · obtain ⟨d1, r1, u1, v1⟩ := code_char _ (e_sub_all _ he)
    obtain ⟨d2, r2, u2, v2⟩ := code_char _ (rl_sub_all _ hrl)
    obtain ⟨d3, r3, u3, v3⟩ := code_char _ (rc_sub_all _ hrc)
    have hE2 : m.exploit_code_maturity = some (String.mk [d1]) := by rw [hE, r1]
    have hR2 : m.remediation_level = some (String.mk [d2]) := by rw [hR, r2]
    have hC2 : m.report_confidence = some (String.mk [d3]) := by rw [hC, r3]
    rw [generate_full_chars m c1 c2 c3 c4 c5 c6 c7 c8 d1 d2 d3
        q1 q2 q3 q4 q5 q6 q7 q8 hE2 hR2 hC2,
      parse_full_chars c1 c2 c3 c4 c5 c6 c7 c8 d1 d2 d3
        s1 s2 s3 s4 s5 s6 s7 s8 u1 u2 u3 t1 t2 t3 t4 t5 t6 t7 t8 v1 v2 v3]
    exact ⟨q1.symm, q2.symm, q3.symm, q4.symm, q5.symm, q6.symm, q7.symm, q8.symm,
      hE2.symm, hR2.symm, hC2.symm⟩

theorem c5_witness :
    (parse_vector_string (generate_vector_string low_scenario_vector)).attack_vector =
      low_scenario_vector.attack_vector ∧
    (parse_vector_string (generate_vector_string low_scenario_vector)).attack_complexity =
      low_scenario_vector.attack_complexity ∧
    (parse_vector_string (generate_vector_string low_scenario_vector)).privileges_required =
      low_scenario_vector.privileges_required ∧
    (parse_vector_string (generate_vector_string low_scenario_vector)).user_interaction =
      low_scenario_vector.user_interaction ∧
    (parse_vector_string (generate_vector_string low_scenario_vector)).scope =
      low_scenario_vector.scope ∧
    (parse_vector_string (generate_vector_string low_scenario_vector)).confidentiality =
      low_scenario_vector.confidentiality ∧
    (parse_vector_string (generate_vector_string low_scenario_vector)).integrity =
      low_scenario_vector.integrity ∧
    (parse_vector_string (generate_vector_string low_scenario_vector)).availability =
      low_scenario_vector.availability ∧
    (parse_vector_string (generate_vector_string low_scenario_vector)).exploit_code_maturity =
      low_scenario_vector.exploit_code_maturity ∧
    (parse_vector_string (generate_vector_string low_scenario_vector)).remediation_level =
      low_scenario_vector.remediation_level ∧
    (parse_vector_string (generate_vector_string low_scenario_vector)).report_confidence =
      low_scenario_vector.report_confidence :=
  c5_roundtrip low_scenario_vector (by decide) (Or.inl ⟨rfl, rfl, rfl⟩)

/-! ## C9: parsing a string with no recognized component -/

/-- A component of the split vector string is recognized when it splits on
`":"` into exactly two parts and its key is one of the eleven metric keys
handled by `parse_vector_string`. -/
def recognized_component (comp : List Char) : Bool :=
  match split_on_char ':' comp with
  | [k, _] =>
    decide (String.mk k ∈
      (["AV", "AC", "PR", "UI", "S", "C", "I", "A", "E", "RL", "RC"] : List String))
  | _ => false

theorem apply_component_unrecognized (m : CVSSMetrics) (comp : List Char)
    (h : recognized_component comp = false) : apply_component m comp = m := by
  unfold recognized_component at h
  unfold apply_component
  by_cases hc : comp = []
  · rw [if_pos hc]
  · rw [if_neg hc]
    rcases hs : split_on_char ':' comp with _ | ⟨k, tl⟩
    · rfl
    · rcases tl with _ | ⟨v, tl2⟩
      · rfl
      · rcases tl2 with _ | ⟨w, tl3⟩
        · rw [hs] at h
          simp only [decide_eq_false_iff_not, List.mem_cons, List.not_mem_nil,
            or_false, not_or] at h
          obtain ⟨n1, n2, n3, n4, n5, n6, n7, n8, n9, n10, n11⟩ := h
          simp [n1, n2, n3, n4, n5, n6, n7, n8, n9, n10, n11]
        · rfl

theorem foldl_unrecognized (l : List (List Char)) (m : CVSSMetrics)
    (h : ∀ c ∈ l, recognized_component c = false) :
    l.foldl apply_component m = m := by
  induction l generalizing m with
  | nil => rfl
  | cons a l ih =>
    rw [List.foldl_cons, apply_component_unrecognized m a (h a (by simp)), ih]
    intro c hc
    exact h c (by simp [hc])

/-- C9: parsing any string none of whose slash-separated components is a
recognized `key:value` token (for instance the empty string) returns the
default-constructed vector — `AV:"N"`, `AC:"H"`, `PR:"H"`, `UI:"R"`,
`S:"U"`, `C:"N"`, `I:"N"`, `A:"N"`, no temporal metrics — whose base score
is `0`. -/
theorem c9_parse_unrecognized (s : String)
    (h : ∀ comp ∈ split_on_char '/' (strip_header s),
      recognized_component comp = false) :
    parse_vector_string s = cvss_default ∧
    cvss_default.attack_vector = "N" ∧ cvss_default.attack_complexity = "H" ∧
    cvss_default.privileges_required = "H" ∧ cvss_default.user_interaction = "R" ∧
    cvss_default.scope = "U" ∧ cvss_default.confidentiality = "N" ∧
    cvss_default.integrity = "N" ∧ cvss_default.availability = "N" ∧
    cvss_default.exploit_code_maturity = none ∧
    cvss_default.remediation_level = none ∧
    cvss_default.report_confidence = none ∧
    calculate_base_score cvss_default = some 0 := by
  refine ⟨?_, rfl, rfl, rfl, rfl, rfl, rfl, rfl, rfl, rfl, rfl, rfl, ?_⟩
  · unfold parse_vector_string
    exact foldl_unrecognized _ _ h
  · norm_num +decide [calculate_base_score, calculate_impact_subscore,
      calculate_exploitability_subscore, av_weight, ac_weight, pr_weight,
      ui_weight, cia_weight, cvss_default]

theorem c9_witness :
    parse_vector_string "" = cvss_default ∧
    cvss_default.attack_vector = "N" ∧ cvss_default.attack_complexity = "H" ∧
    cvss_default.privileges_required = "H" ∧ cvss_default.user_interaction = "R" ∧
    cvss_default.scope = "U" ∧ cvss_default.confidentiality = "N" ∧
    cvss_default.integrity = "N" ∧ cvss_default.availability = "N" ∧
    cvss_default.exploit_code_maturity = none ∧
    cvss_default.remediation_level = none ∧
    cvss_default.report_confidence = none ∧
    calculate_base_score cvss_default = some 0 :=
  c9_parse_unrecognized "" (by decide)

end CVSS
